import Mathlib

/-!
# Verification of the Eventum pipeline core (`src/eventum/core/subprocesses.py`)

A shallow embedding of the three pipeline stages (input, event, output) of
Eventum, their termination helper `_terminate_subprocess`, the `write_batch`
helper of the output stage, and the spec-described `Batcher`.

Modelling conventions:
* An inter-stage queue is a list of messages, in the order they were put.
  A message is `Option (List α)`: `some batch` is a batch payload, `none`
  is the sentinel (Python `None`).
* Plugin behaviour (success, the various exception classes, emitted data)
  is an explicit environment parameter, since plugins are external to the
  stage code.
* A Python process that dies from an uncaught exception is modelled as a
  result with `crashed := true`, exit code 1, done signal not set.
* Machine-level concerns (process isolation, pickling, blocking puts) are
  out of scope; queues are unbounded message lists here.
-/

namespace Eventum

/-- Observable result of a stage run that reaches an exit: the messages put
on the stage's outbound queue (in order), whether the stage's done signal
was set before exiting, and the exit code. -/
structure StageResult (μ : Type) where
  out : List (Option μ)
  doneSet : Bool
  exitCode : Nat
deriving DecidableEq, Repr

/-- `_terminate_subprocess` (subprocesses.py lines 55–64): if a signal queue
was passed, put the sentinel `None` on it (exactly one `put` call), then set
the done signal and exit with the given code. It never returns. -/
def terminate_subprocess (μ : Type) (exit_code : Nat) (signal_queue : Bool) :
    StageResult μ :=
  { out := if signal_queue then [none] else [],
    doneSet := true,
    exitCode := exit_code }

/-- The SIGINT handler installed by the `subprocess` decorator
(subprocesses.py line 46): `lambda signal, stack_frame: exit(0)`.
It exits the process with code 0 immediately: no sentinel is put on any
queue and the done signal is not touched. -/
def sigint_handler_exit (μ : Type) : StageResult μ :=
  { out := [], doneSet := false, exitCode := 0 }

/-- Modelled from the spec: one `add` step of the `Batcher`
(`eventum.core.batcher`, whose source is not under `src/`).  Per spec §4.1,
`add` appends the item to the current batch and flushes immediately when the
batch reaches `size`.  The state is the pair (batches flushed so far,
current pending batch). -/
def batcherStep (size : Nat) (acc : List (List α) × List α) (item : α) :
    List (List α) × List α :=
  let cur := acc.2 ++ [item]
  if size ≤ cur.length then (acc.1 ++ [cur], []) else (acc.1, cur)

/-- Modelled from the spec: a full scoped `Batcher` run over the items a
stage adds, returning the batches delivered to the callback, in order.
Per spec §4.1 the scope exit guarantees a final `flush()`, which delivers
the pending batch only if it is non-empty.  The advisory timer can only
move flush boundaries earlier; it never reorders, drops or duplicates
items, so it is omitted from this deterministic model. -/
def batcherRun (size : Nat) (items : List α) : List (List α) :=
  let fin := items.foldl (batcherStep size) ([], [])
  if fin.2.isEmpty then fin.1 else fin.1 ++ [fin.2]

/-- `dict.popitem()` on an insertion-ordered mapping (modelled as an
association list in insertion order): removes and returns the last-inserted
entry; on an empty mapping it raises `KeyError`, modelled as `none`. -/
def popitem (m : List (κ × ο)) : Option ((κ × ο) × List (κ × ο)) :=
  match m.getLast? with
  | none => none
  | some e => some (e, m.dropLast)

/-- Outcome of loading and configuring the input plugin (the first `try`
block of `start_input_subprocess`, lines 78–100): success, or one of the
exception classes distinguished by the `except` clauses. -/
inductive InputInitOutcome where
  | success
  | importError
  | contentReadError
  | configurationError
  | unexpectedError
deriving DecidableEq, Repr

/-- Outcome of driving the input plugin (the second `try` block, lines
104–129): the plugin run completes normally, or raises one of the
exception classes distinguished by the `except` clauses. -/
inductive InputRunOutcome where
  | completes
  | attributeError
  | runtimeError
  | unexpectedError
deriving DecidableEq, Repr

/-- Environment of one input-stage run: how plugin loading goes, which
timestamps the plugin passes to `batcher.add` before its run ends, and how
the run ends. -/
structure InputEnv (τ : Type) where
  init : InputInitOutcome
  emitted : List τ
  run : InputRunOutcome

/-- Full observable trace of `start_input_subprocess` (lines 67–132),
including how the configuration mapping was consumed. -/
structure InputStageTrace (τ κ ο : Type) where
  pluginLoadAttempted : Bool
  usedEntry : Option (κ × ο)
  configAfter : List (κ × ο)
  crashed : Bool
  out : List (Option (List τ))
  doneSet : Bool
  exitCode : Nat
deriving DecidableEq, Repr

/-- `start_input_subprocess` (lines 67–132).  `config.popitem()` runs before
the first `try` block, so an empty mapping raises an uncaught `KeyError`:
the stage dies before any plugin load, with no sentinel and no done signal.
Otherwise the last-inserted entry is consumed (removed from the mapping).
On an init exception the handler calls `_terminate_subprocess(is_done, 1,
queue)` with no batch ever put.  On success the scoped batcher flushes the
emitted timestamps (also when the run raises, since the `with` scope exit
flushes), and every exit path ends in `_terminate_subprocess` with the
queue passed, exit code 0 only when the run completes. -/
def start_input_subprocess (batchSize : Nat) (config : List (κ × ο))
    (env : InputEnv τ) : InputStageTrace τ κ ο :=
  match popitem config with
  | none =>
      { pluginLoadAttempted := false, usedEntry := none, configAfter := config,
        crashed := true, out := [], doneSet := false, exitCode := 1 }
  | some (entry, rest) =>
      match env.init with
      | .success =>
          let code : Nat := match env.run with | .completes => 0 | _ => 1
          let t := terminate_subprocess (List τ) code true
      { pluginLoadAttempted := true, usedEntry := some entry,
        configAfter := rest, crashed := false,
        out := (batcherRun batchSize env.emitted).map some ++ t.out,
        doneSet := t.doneSet, exitCode := t.exitCode }
      | _ =>
          let t := terminate_subprocess (List τ) 1 true
      { pluginLoadAttempted := true, usedEntry := some entry,
        configAfter := rest, crashed := false,
        out := t.out, doneSet := t.doneSet, exitCode := t.exitCode }

/-- Outcome of constructing the event plugin (`JinjaEventPlugin(config)`,
lines 144–154). -/
inductive EventInitOutcome where
  | success
  | configurationError
  | unexpectedError
deriving DecidableEq, Repr

/-- Outcome of one `event_plugin.render(timestamp)` call: a list of events,
or one of the exception classes distinguished by the `except` clauses of
the main loop (lines 174–181). -/
inductive RenderOutcome (ε : Type) where
  | ok (events : List ε)
  | runtimeError
  | unexpectedError
deriving DecidableEq, Repr

/-- Environment of one event-stage run: how plugin construction goes and
how each timestamp renders. -/
structure EventEnv (τ ε : Type) where
  init : EventInitOutcome
  render : τ → RenderOutcome ε

/-- The inner double loop over one timestamp batch (lines 171–173): render
each timestamp in received order, adding its events in order, until the
batch ends or a render raises.  Returns the events added to the batcher
before the run of the batch ended, and whether a render raised. -/
def renderBatch (render : τ → RenderOutcome ε) : List τ → List ε × Bool
  | [] => ([], false)
  | t :: rest =>
      match render t with
      | .ok evs =>
          let more := renderBatch render rest
          (evs ++ more.1, more.2)
      | _ => ([], true)

/-- Outcome of the event stage: either it exits (with its outbound trace),
or it blocks forever on `input_queue.get()` because the modelled inbound
message list ran out without a sentinel. -/
inductive EventStageOutcome (ε : Type) where
  | exited (r : StageResult (List ε))
  | blocked (outSoFar : List (Option (List ε)))
deriving DecidableEq, Repr

/-- The `while is_running` loop of `start_event_subprocess` (lines
158–184).  `acc` is the trace of messages already put on the event→output
queue.  A sentinel from upstream breaks the loop and the stage terminates
with code 0; a timestamp batch is rendered through a fresh scoped batcher
whose scope is exited (flushing the remainder) before the next dequeue;
a render exception flushes the scope and terminates with code 1.  Every
exit passes `event_queue` to `_terminate_subprocess`. -/
def eventLoop (size : Nat) (render : τ → RenderOutcome ε) :
    List (Option (List τ)) → List (Option (List ε)) → EventStageOutcome ε
  | [], acc => .blocked acc
  | none :: _, acc =>
      let t := terminate_subprocess (List ε) 0 true
      .exited { out := acc ++ t.out, doneSet := t.doneSet, exitCode := t.exitCode }
  | some batch :: rest, acc =>
      let rendered := renderBatch render batch
      let flushed := (batcherRun size rendered.1).map some
      if rendered.2 then
        let t := terminate_subprocess (List ε) 1 true
        .exited { out := acc ++ flushed ++ t.out, doneSet := t.doneSet,
                  exitCode := t.exitCode }
      else
        eventLoop size render rest (acc ++ flushed)

/-- `start_event_subprocess` (lines 135–184): construct the event plugin
(terminating with code 1 and a sentinel on failure), then run the main
loop over the inbound messages. -/
def start_event_subprocess (size : Nat) (env : EventEnv τ ε)
    (msgs : List (Option (List τ))) : EventStageOutcome ε :=
  match env.init with
  | .success => eventLoop size env.render msgs []
  | _ =>
      let t := terminate_subprocess (List ε) 1 true
      .exited t

/-- Outcome of constructing one output plugin (lines 200–224). -/
inductive ConstructOutcome where
  | success
  | configurationError
  | unexpectedError
deriving DecidableEq, Repr

/-- Whether construction succeeded. -/
def ConstructOutcome.isSuccess : ConstructOutcome → Bool
  | .success => true
  | _ => false

/-- Behaviour of one `plugin.write` / `plugin.write_many` call: return a
written count, raise `OutputPluginRuntimeError`, or raise any other
exception (which `write_batch` does not catch). -/
inductive WriteBehavior where
  | returns (count : Nat)
  | raisesRuntime
  | raisesOther
deriving DecidableEq, Repr

/-- Environment of one output plugin across a run: its construction
outcome, whether `open()` succeeds, its write behaviour when handling the
i-th dequeued batch, and whether `close()` succeeds. -/
structure OutputPluginBehavior where
  construct : ConstructOutcome
  openSucceeds : Bool
  write : Nat → WriteBehavior
  closeSucceeds : Bool

/-- Result of one `write_batch` call (lines 228–245).  The local variable
`count` is assigned only inside the `try` body, and only when the batch is
non-empty and the plugin call returns; the comparison `count < batch_size`
after the `try` block reads it unconditionally. -/
inductive WriteBatchResult where
  | ok (warned : Bool)
  | unboundLocalError (loggedError : Bool)
  | uncaughtException
deriving DecidableEq, Repr

/-- Whether `write_batch` returned normally. -/
def WriteBatchResult.isOk : WriteBatchResult → Bool
  | .ok _ => true
  | _ => false

/-- `write_batch` (lines 228–245), faithfully mirroring the control flow:
`count` starts unassigned; it is assigned from `plugin.write` when
`batch_size == 1` and from `plugin.write_many` when `batch_size > 1`; an
`OutputPluginRuntimeError` from either call is caught and logged; any
other exception propagates out of `write_batch` at once.  Execution then
reaches `if count < batch_size`: if `count` was never assigned this read
raises `UnboundLocalError` (after the runtime error was logged, or on an
empty batch); otherwise the comparison decides whether the partial-write
warning is logged. -/
def write_batch (batch : List ε) (b : WriteBehavior) : WriteBatchResult :=
  let batch_size := batch.length
  let tried : Except Bool (Option Nat) :=
    if batch_size = 1 then
      match b with
      | .returns c => .ok (some c)
      | .raisesRuntime => .error true
      | .raisesOther => .error false
    else if 1 < batch_size then
      match b with
      | .returns c => .ok (some c)
      | .raisesRuntime => .error true
      | .raisesOther => .error false
    else
      .ok none
  match tried with
  | .error false => .uncaughtException
  | .error true => .unboundLocalError true
  | .ok none => .unboundLocalError false
  | .ok (some count) => .ok (decide (count < batch_size))

/-- Observable result of an output-stage run that reaches a process exit. -/
structure OutputStageResult where
  enteredMainLoop : Bool
  openedAll : Bool
  closeAttempted : Bool
  increments : List Nat
  crashed : Bool
  doneSet : Bool
  exitCode : Nat
deriving DecidableEq, Repr

/-- Outcome of the output stage: a process exit, or blocking forever on
`queue.get()` because the modelled inbound message list ran out without a
sentinel (`increments` records the counter additions made until then). -/
inductive OutputOutcome where
  | finished (r : OutputStageResult)
  | blocked (increments : List Nat)
deriving DecidableEq, Repr

/-- The `while is_running` loop plus close phase of `run_loop` (lines
252–271).  `i` is the index of the next batch to dequeue, `incs` the
counter additions made so far.  For each dequeued batch, `write_batch`
runs for every plugin (the `asyncio.gather` fan-out); only if all of them
return normally is `processed_events.value` incremented by the batch
length.  If any `write_batch` raises, the exception escapes `run_loop` and
`asyncio.run`, crashing the process: no close, no done signal.  On the
sentinel, all plugins are closed concurrently; a close failure likewise
escapes and crashes the process.  Normal completion reaches
`_terminate_subprocess(is_done, 0)` (no signal queue). -/
def outputLoop (plugins : List OutputPluginBehavior) :
    List (Option (List ε)) → Nat → List Nat → OutputOutcome
  | [], _, incs => .blocked incs
  | none :: _, _, incs =>
      if plugins.all (fun p => p.closeSucceeds) then
        .finished { enteredMainLoop := true, openedAll := true,
                    closeAttempted := true, increments := incs,
                    crashed := false, doneSet := true, exitCode := 0 }
      else
        .finished { enteredMainLoop := true, openedAll := true,
                    closeAttempted := true, increments := incs,
                    crashed := true, doneSet := false, exitCode := 1 }
  | some batch :: rest, i, incs =>
      if plugins.all (fun p => (write_batch batch (p.write i)).isOk) then
        outputLoop plugins rest (i + 1) (incs ++ [batch.length])
      else
        .finished { enteredMainLoop := true, openedAll := true,
                    closeAttempted := false, increments := incs,
                    crashed := true, doneSet := false, exitCode := 1 }

/-- `start_output_subprocess` (lines 187–276): construct the plugins in
configuration order, where the first construction failure is caught and
handled by `_terminate_subprocess(is_done, 1)` — note: done signal set,
exit code 1, no sentinel on any queue, and the main loop never entered.
Then `run_loop` first awaits `plugin.open()` for all plugins; if any open
raises, the exception escapes `asyncio.run` and the process crashes (done
signal not set, nothing closed, main loop never entered).  Otherwise the
main loop runs; on normal completion the stage sets its done signal and
exits 0. -/
def start_output_subprocess (plugins : List OutputPluginBehavior)
    (msgs : List (Option (List ε))) : OutputOutcome :=
  if plugins.all (fun p => p.construct.isSuccess) then
    if plugins.all (fun p => p.openSucceeds) then
      outputLoop plugins msgs 0 []
    else
      .finished { enteredMainLoop := false, openedAll := false,
                  closeAttempted := false, increments := [],
                  crashed := true, doneSet := false, exitCode := 1 }
  else
    .finished { enteredMainLoop := false, openedAll := false,
                closeAttempted := false, increments := [],
                crashed := false, doneSet := true, exitCode := 1 }

/-- Number of sentinels in a queue trace. -/
def sentinelCount (out : List (Option μ)) : Nat :=
  out.countP (fun m => m.isNone)

/-- The flattened payload carried by a queue trace: all batch contents in
order, sentinels skipped. -/
def payload (out : List (Option (List ε))) : List ε :=
  (out.filterMap id).flatten

/-- The value of the processed-events counter after each increment of a
run, starting from its initial value 0. -/
def counterValues (incs : List Nat) : List Nat :=
  List.scanl (· + ·) 0 incs

/-! ## Helper lemmas -/

theorem batcherStep_eq (size : Nat) (fl : List (List α)) (cur : List α) (x : α) :
    batcherStep size (fl, cur) x =
      if size ≤ (cur ++ [x]).length then (fl ++ [cur ++ [x]], [])
      else (fl, cur ++ [x]) := by
  unfold batcherStep
  by_cases h : size ≤ (cur ++ [x]).length <;> simp [h]

theorem batcherFold_flatten (size : Nat) (items : List α) :
    ∀ (fl : List (List α)) (cur : List α),
      (items.foldl (batcherStep size) (fl, cur)).1.flatten
        ++ (items.foldl (batcherStep size) (fl, cur)).2
        = fl.flatten ++ cur ++ items := by
  induction items with
  | nil => intro fl cur; simp
  | cons x xs ih =>
      intro fl cur
      rw [List.foldl_cons, batcherStep_eq]
      by_cases h : size ≤ (cur ++ [x]).length
      · rw [if_pos h, ih]
        simp [List.flatten_append]
      · rw [if_neg h, ih]
        simp

/-- The batcher neither loses, duplicates nor reorders items: the
concatenation of the delivered batches is the sequence of items added. -/
theorem batcherRun_flatten (size : Nat) (items : List α) :
    (batcherRun size items).flatten = items := by
  unfold batcherRun
  have h := batcherFold_flatten size items [] []
  simp only [List.flatten_nil, List.nil_append] at h
  by_cases he : (items.foldl (batcherStep size) ([], [])).2.isEmpty
  · rw [if_pos he]
    rw [List.isEmpty_iff] at he
    rw [he, List.append_nil] at h
    exact h
  · rw [if_neg he]
    rw [List.flatten_append]
    simp only [List.flatten_cons, List.flatten_nil, List.append_nil]
    exact h

theorem batcherRun_nil (size : Nat) : batcherRun size ([] : List α) = [] := rfl

theorem sentinelCount_append (a b : List (Option μ)) :
    sentinelCount (a ++ b) = sentinelCount a + sentinelCount b :=
  List.countP_append ..

theorem sentinelCount_map_some (l : List μ) :
    sentinelCount (l.map some) = 0 := by
  induction l with
  | nil => rfl
  | cons x xs ih =>
      simp only [List.map_cons, sentinelCount, List.countP_cons, Option.isNone_some,
        Bool.false_eq_true, if_false, Nat.add_zero]
      exact ih

theorem sentinelCount_single : sentinelCount ([none] : List (Option μ)) = 1 := by
  simp [sentinelCount]

theorem payload_append (a b : List (Option (List ε))) :
    payload (a ++ b) = payload a ++ payload b := by
  simp [payload, List.filterMap_append, List.flatten_append]

theorem payload_map_some (l : List (List ε)) :
    payload (l.map some) = l.flatten := by
  simp [payload]

theorem payload_sentinel : payload ([none] : List (Option (List ε))) = [] := rfl

theorem renderBatch_ok (f : τ → List ε) (batch : List τ) :
    renderBatch (fun t => RenderOutcome.ok (f t)) batch = (batch.flatMap f, false) := by
  induction batch with
  | nil => rfl
  | cons t rest ih => simp [renderBatch, ih]

theorem eventLoop_exited_sentinelCount (size : Nat) (render : τ → RenderOutcome ε) :
    ∀ (msgs : List (Option (List τ))) (acc : List (Option (List ε)))
      (r : StageResult (List ε)),
      eventLoop size render msgs acc = .exited r →
      sentinelCount r.out = sentinelCount acc + 1 := by
  intro msgs
  induction msgs with
  | nil =>
      intro acc r h
      exact absurd h (by simp [eventLoop])
  | cons m rest ih =>
      intro acc r h
      cases m with
      | none =>
          simp only [eventLoop, terminate_subprocess, EventStageOutcome.exited.injEq] at h
          rw [← h]
          simp [sentinelCount_append, sentinelCount_single]
      | some batch =>
          simp only [eventLoop] at h
          split at h
          · simp only [terminate_subprocess, EventStageOutcome.exited.injEq] at h
            rw [← h]
            simp [sentinelCount_append, sentinelCount_map_some, sentinelCount_single]
          · rw [ih _ _ h, sentinelCount_append, sentinelCount_map_some]

theorem eventLoop_exited_done (size : Nat) (render : τ → RenderOutcome ε) :
    ∀ (msgs : List (Option (List τ))) (acc : List (Option (List ε)))
      (r : StageResult (List ε)),
      eventLoop size render msgs acc = .exited r → r.doneSet = true := by
  intro msgs
  induction msgs with
  | nil =>
      intro acc r h
      exact absurd h (by simp [eventLoop])
  | cons m rest ih =>
      intro acc r h
      cases m with
      | none =>
          simp only [eventLoop, terminate_subprocess, EventStageOutcome.exited.injEq] at h
          rw [← h]
      | some batch =>
          simp only [eventLoop] at h
          split at h
          · simp only [terminate_subprocess, EventStageOutcome.exited.injEq] at h
            rw [← h]
          · exact ih _ _ h

theorem eventLoop_ok (size : Nat) (f : τ → List ε) (batches : List (List τ)) :
    ∀ (acc : List (Option (List ε))),
      eventLoop size (fun t => RenderOutcome.ok (f t)) (batches.map some ++ [none]) acc =
        .exited { out := acc
                    ++ (batches.flatMap fun b => (batcherRun size (b.flatMap f)).map some)
                    ++ [none],
                  doneSet := true, exitCode := 0 } := by
  induction batches with
  | nil =>
      intro acc
      simp [eventLoop, terminate_subprocess]
  | cons b bs ih =>
      intro acc
      simp only [List.map_cons, List.cons_append, eventLoop, renderBatch_ok,
        Bool.false_eq_true, if_false, List.append_eq]
      rw [ih]
      simp [List.append_assoc]

theorem write_batch_nil (b : WriteBehavior) :
    write_batch ([] : List ε) b = .unboundLocalError false := rfl

theorem write_batch_pos (batch : List ε) (b : WriteBehavior) (h : batch ≠ []) :
    write_batch batch b =
      match b with
      | .returns c => .ok (decide (c < batch.length))
      | .raisesRuntime => .unboundLocalError true
      | .raisesOther => .uncaughtException := by
  rcases batch with _ | ⟨x, _ | ⟨y, rest⟩⟩
  · exact absurd rfl h
  · cases b <;> rfl
  · have h1 : ¬(rest.length + 1 + 1 = 1) := by omega
    have h2 : 1 < rest.length + 1 + 1 := by omega
    simp only [write_batch, List.length_cons]
    rw [if_neg h1, if_pos h2]
    cases b <;> rfl

theorem write_batch_returns_ok (batch : List ε) (c : Nat) (h : batch ≠ []) :
    write_batch batch (.returns c) = .ok (decide (c < batch.length)) := by
  rw [write_batch_pos batch _ h]

theorem write_batch_runtime_error (batch : List ε) (h : batch ≠ []) :
    write_batch batch .raisesRuntime = .unboundLocalError true := by
  rw [write_batch_pos batch _ h]

theorem write_batch_other_error (batch : List ε) (h : batch ≠ []) :
    write_batch batch .raisesOther = .uncaughtException := by
  rw [write_batch_pos batch _ h]

theorem outputLoop_processes (plugins : List OutputPluginBehavior) :
    ∀ (batches : List (List ε)), (∀ b ∈ batches, b ≠ []) →
      (∀ p ∈ plugins, ∀ i, ∃ c, p.write i = .returns c) →
      ∀ (rest : List (Option (List ε))) (i : Nat) (incs : List Nat),
        outputLoop plugins (batches.map some ++ rest) i incs =
          outputLoop plugins rest (i + batches.length) (incs ++ batches.map List.length) := by
  intro batches
  induction batches with
  | nil => intro _ _ rest i incs; simp
  | cons b bs ih =>
      intro hne hw rest i incs
      have hb : b ≠ [] := hne b (by simp)
      have hall : plugins.all (fun p => (write_batch b (p.write i)).isOk) = true := by
        rw [List.all_eq_true]
        intro p hp
        obtain ⟨c, hc⟩ := hw p hp i
        rw [hc, write_batch_returns_ok b c hb]
        rfl
      have stepEq : outputLoop plugins ((b :: bs).map some ++ rest) i incs =
          outputLoop plugins (bs.map some ++ rest) (i + 1) (incs ++ [b.length]) := by
        simp only [List.map_cons, List.cons_append, outputLoop, hall, if_true,
          List.append_eq]
      rw [stepEq,
        ih (fun b' hb' => hne b' (by simp [hb'])) hw rest (i + 1) (incs ++ [b.length])]
      have e1 : i + 1 + bs.length = i + (b :: bs).length := by
        simp only [List.length_cons]
        omega
      have e2 : (incs ++ [b.length]) ++ bs.map List.length
          = incs ++ (b :: bs).map List.length := by
        simp
      rw [e1, e2]

theorem outputLoop_finished_done (plugins : List OutputPluginBehavior) :
    ∀ (msgs : List (Option (List ε))) (i : Nat) (incs : List Nat)
      (r : OutputStageResult),
      outputLoop plugins msgs i incs = .finished r → r.crashed = false →
      r.doneSet = true := by
  intro msgs
  induction msgs with
  | nil => intro i incs r h _; exact absurd h (by simp [outputLoop])
  | cons m rest ih =>
      intro i incs r h hc
      cases m with
      | none =>
          simp only [outputLoop] at h
          split at h
          · simp only [OutputOutcome.finished.injEq] at h
            rw [← h]
          · simp only [OutputOutcome.finished.injEq] at h
            rw [← h] at hc
            exact absurd hc (by simp)
      | some batch =>
          simp only [outputLoop] at h
          split at h
          · exact ih _ _ r h hc
          · simp only [OutputOutcome.finished.injEq] at h
            rw [← h] at hc
            exact absurd hc (by simp)

theorem outputLoop_entered (plugins : List OutputPluginBehavior) :
    ∀ (msgs : List (Option (List ε))) (i : Nat) (incs : List Nat)
      (r : OutputStageResult),
      outputLoop plugins msgs i incs = .finished r → r.enteredMainLoop = true := by
  intro msgs
  induction msgs with
  | nil => intro i incs r h; exact absurd h (by simp [outputLoop])
  | cons m rest ih =>
      intro i incs r h
      cases m with
      | none =>
          simp only [outputLoop] at h
          split at h <;>
            (simp only [OutputOutcome.finished.injEq] at h; rw [← h])
      | some batch =>
          simp only [outputLoop] at h
          split at h
          · exact ih _ _ r h
          · simp only [OutputOutcome.finished.injEq] at h
            rw [← h]

theorem isSuccess_iff (c : ConstructOutcome) :
    c.isSuccess = true ↔ c = .success := by
  cases c <;> simp [ConstructOutcome.isSuccess]

theorem popitem_ne_nil (config : List (κ × ο)) (h : config ≠ []) :
    popitem config = some ((config.getLast h, config.dropLast)) := by
  unfold popitem
  rw [List.getLast?_eq_getLast config h]

theorem scanl_add_head (a : Nat) (l : List Nat) :
    (List.scanl (· + ·) a l).head? = some a := by
  cases l <;> simp [List.scanl_nil, List.scanl_cons]

theorem chain'_le_scanl_add (l : List Nat) :
    ∀ (a : Nat), List.Chain' (· ≤ ·) (List.scanl (· + ·) a l) := by
  induction l with
  | nil => intro a; simp [List.scanl_nil]
  | cons x xs ih =>
      intro a
      rw [List.scanl_cons, List.singleton_append, List.chain'_cons']
      refine ⟨?_, ih (a + x)⟩
      intro y hy
      rw [scanl_add_head, Option.mem_def, Option.some.injEq] at hy
      omega

/-! ## Claims -/

/-- C1: On every structured exit path of the input stage and of the event
stage, exactly one sentinel is put on that stage's outbound queue before
the stage exits.  `_terminate_subprocess` puts the sentinel exactly once
whenever a signal queue is passed; every exit of `start_input_subprocess`
(under the data-model invariant that the validated input configuration
mapping is non-empty) calls it with the input→event queue, so the
outbound trace carries exactly one sentinel; and every exit of
`start_event_subprocess` calls it with the event→output queue, so its
outbound trace carries exactly one sentinel. -/
theorem c1_one_sentinel_per_stage :
    (∀ (μ : Type) (code : Nat),
      sentinelCount (terminate_subprocess μ code true).out = 1)
    ∧ (∀ (κ ο τ : Type) (size : Nat) (config : List (κ × ο)) (env : InputEnv τ),
        config ≠ [] →
        sentinelCount (start_input_subprocess size config env).out = 1)
    ∧ (∀ (τ ε : Type) (size : Nat) (env : EventEnv τ ε)
        (msgs : List (Option (List τ))) (r : StageResult (List ε)),
        start_event_subprocess size env msgs = .exited r →
        sentinelCount r.out = 1) := by
  refine ⟨?_, ?_, ?_⟩
  · intro μ code
    simp [terminate_subprocess, sentinelCount]
  · intro κ ο τ size config env h
    unfold start_input_subprocess
    rw [popitem_ne_nil config h]
    obtain ⟨einit, eem, erun⟩ := env
    cases einit <;> cases erun <;>
      simp [terminate_subprocess, sentinelCount_append, sentinelCount_map_some,
        sentinelCount]
  · intro τ ε size env msgs r h
    unfold start_event_subprocess at h
    split at h
    · have hh := eventLoop_exited_sentinelCount size env.render msgs [] r h
      simpa [sentinelCount] using hh
    · simp only [terminate_subprocess, EventStageOutcome.exited.injEq] at h
      rw [← h]
      simp [sentinelCount]

/-- Witness for C1 at concrete inputs: a successful input run over a
one-entry configuration, `_terminate_subprocess` itself, and an event
stage fed only the sentinel. -/
theorem c1_one_sentinel_per_stage_witness :
    sentinelCount (terminate_subprocess Nat 0 true).out = 1
    ∧ sentinelCount (start_input_subprocess 2 [((1 : Nat), (1 : Nat))]
        (⟨.success, [5, 6, 7], .completes⟩ : InputEnv Nat)).out = 1
    ∧ sentinelCount (({ out := [none], doneSet := true, exitCode := 0 }
        : StageResult (List Nat)).out) = 1 := by
  refine ⟨c1_one_sentinel_per_stage.1 Nat 0, ?_, ?_⟩
  · exact c1_one_sentinel_per_stage.2.1 Nat Nat Nat 2 [(1, 1)]
      ⟨.success, [5, 6, 7], .completes⟩ (by decide)
  · exact c1_one_sentinel_per_stage.2.2 Nat Nat 2
      (⟨.success, fun _ => .ok [0]⟩ : EventEnv Nat Nat) [none]
      { out := [none], doneSet := true, exitCode := 0 } rfl

/-- C2: In the output stage's main loop, each dequeued batch of length N
adds exactly N to the processed-events counter after all per-plugin
writes return, regardless of the counts the plugins report (the write
behaviours are arbitrary `returns c`, including `c = 0`); over an
error-free run the counter total equals the number of events dequeued,
and the counter value sequence never decreases. -/
theorem c2_counter_increments_by_batch_length (ε : Type)
    (plugins : List OutputPluginBehavior) (batches : List (List ε))
    (hne : ∀ b ∈ batches, b ≠ [])
    (hw : ∀ p ∈ plugins, ∀ i, ∃ c, p.write i = .returns c)
    (hc : ∀ p ∈ plugins, p.construct = .success)
    (ho : ∀ p ∈ plugins, p.openSucceeds = true)
    (hcl : ∀ p ∈ plugins, p.closeSucceeds = true) :
    start_output_subprocess plugins (batches.map some ++ [none]) =
      .finished { enteredMainLoop := true, openedAll := true,
                  closeAttempted := true, increments := batches.map List.length,
                  crashed := false, doneSet := true, exitCode := 0 }
    ∧ (batches.map List.length).sum = batches.flatten.length
    ∧ List.Chain' (· ≤ ·) (counterValues (batches.map List.length)) := by
  refine ⟨?_, (List.length_flatten batches).symm, ?_⟩
  · unfold start_output_subprocess
    have hca : plugins.all (fun p => p.construct.isSuccess) = true := by
      rw [List.all_eq_true]
      intro p hp
      rw [isSuccess_iff]
      exact hc p hp
    have hoa : plugins.all (fun p => p.openSucceeds) = true := by
      rw [List.all_eq_true]
      intro p hp
      exact ho p hp
    have hcla : plugins.all (fun p => p.closeSucceeds) = true := by
      rw [List.all_eq_true]
      intro p hp
      exact hcl p hp
    rw [if_pos hca, if_pos hoa,
      outputLoop_processes plugins batches hne hw [none] 0 []]
    simp only [outputLoop, hcla, if_true, List.nil_append]
  · unfold counterValues
    exact chain'_le_scanl_add _ 0

/-- Witness for C2: one plugin that always reports `count = 0`, two
non-empty batches of lengths 1 and 2. -/
theorem c2_counter_increments_by_batch_length_witness :
    start_output_subprocess [⟨.success, true, fun _ => .returns 0, true⟩]
      [some [1], some [2, 3], (none : Option (List Nat))] =
      .finished { enteredMainLoop := true, openedAll := true,
                  closeAttempted := true, increments := [1, 2],
                  crashed := false, doneSet := true, exitCode := 0 }
    ∧ List.Chain' (· ≤ ·) (counterValues [1, 2]) := by
  have h := c2_counter_increments_by_batch_length Nat
    [⟨.success, true, fun _ => .returns 0, true⟩] [[1], [2, 3]]
    (by decide)
    (by intro p hp i
        rw [List.mem_singleton] at hp
        subst hp
        exact ⟨0, rfl⟩)
    (by intro p hp
        rw [List.mem_singleton] at hp
        subst hp
        rfl)
    (by intro p hp
        rw [List.mem_singleton] at hp
        subst hp
        rfl)
    (by intro p hp
        rw [List.mem_singleton] at hp
        subst hp
        rfl)
  exact ⟨h.1, h.2.2⟩

/-- C3 (code bug): when an output plugin raises
`OutputPluginRuntimeError` during a write, `write_batch` catches and logs
it, but then unconditionally evaluates `count < batch_size` with `count`
never assigned, raising `UnboundLocalError`; the exception escapes
`run_loop` and `asyncio.run`, crashing the output stage, so the pipeline
does not continue to the next batch (here the second batch is never
processed and nothing is closed). -/
theorem c3_write_error_crashes_output_stage :
    write_batch [(0 : Nat)] .raisesRuntime = .unboundLocalError true
    ∧ start_output_subprocess [⟨.success, true, fun _ => .raisesRuntime, true⟩]
        [some [(0 : Nat)], some [1], none] =
      .finished { enteredMainLoop := true, openedAll := true,
                  closeAttempted := false, increments := [],
                  crashed := true, doneSet := false, exitCode := 1 } := by
  exact ⟨rfl, rfl⟩

/-- C4: when no render error occurs, the event stage exits the per-batch
batcher scope (flushing its remainder) before dequeuing the next input
batch, and the flattened payload put on the event→output queue is exactly
the in-order concatenation of the events rendered from the input
timestamps in stream order — so every event rendered from an earlier
timestamp is enqueued before any event rendered from a later one. -/
theorem c4_event_order_preserved (τ ε : Type) (size : Nat) (f : τ → List ε)
    (batches : List (List τ)) :
    start_event_subprocess size (⟨.success, fun t => .ok (f t)⟩ : EventEnv τ ε)
        (batches.map some ++ [none]) =
      .exited { out := (batches.flatMap fun b => (batcherRun size (b.flatMap f)).map some)
                  ++ [none],
                doneSet := true, exitCode := 0 }
    ∧ payload ((batches.flatMap fun b => (batcherRun size (b.flatMap f)).map some)
          ++ [none])
        = batches.flatten.flatMap f := by
  constructor
  · have h := eventLoop_ok size f batches []
    simpa [start_event_subprocess] using h
  · rw [payload_append, payload_sentinel, List.append_nil]
    induction batches with
    | nil => rfl
    | cons b bs ih =>
        rw [List.flatMap_cons, payload_append, payload_map_some, batcherRun_flatten,
          List.flatten_cons, List.flatMap_append, ih]

/-- C5 counterexample: a run with two output plugins where the first
plugin's `open()` fails.  The open-phase exception escapes `run_loop` and
`asyncio.run`, so the stage does exit with a failure code and the main
loop is never entered, but — contrary to the claim — no close of the
plugin that did open is attempted (and the done signal is not set). -/
theorem c5_open_failure_counterexample :
    start_output_subprocess
        [⟨.success, false, fun _ => .returns 1, true⟩,
         ⟨.success, true, fun _ => .returns 1, true⟩]
        [some [(0 : Nat)], none] =
      .finished { enteredMainLoop := false, openedAll := false,
                  closeAttempted := false, increments := [],
                  crashed := true, doneSet := false, exitCode := 1 } := by
  rfl

/-- C5 amended: all output plugins are constructed and opened before any
batch is consumed.  If a plugin's construction fails, the stage
terminates through `_terminate_subprocess` with exit code 1, the done
signal set and the main loop never entered (nothing was opened, so
nothing is closed).  If construction succeeds but a plugin's `open()`
fails, the stage crashes with a failure exit code without entering the
main loop, without attempting to close the plugins that did open, and
without setting the done signal. -/
theorem c5_open_before_consume_amended (ε : Type)
    (plugins : List OutputPluginBehavior) (msgs : List (Option (List ε))) :
    ((¬ ∀ p ∈ plugins, p.construct = .success) →
      start_output_subprocess plugins msgs =
        .finished { enteredMainLoop := false, openedAll := false,
                    closeAttempted := false, increments := [],
                    crashed := false, doneSet := true, exitCode := 1 })
    ∧ ((∀ p ∈ plugins, p.construct = .success) →
        (¬ ∀ p ∈ plugins, p.openSucceeds = true) →
      start_output_subprocess plugins msgs =
        .finished { enteredMainLoop := false, openedAll := false,
                    closeAttempted := false, increments := [],
                    crashed := true, doneSet := false, exitCode := 1 })
    ∧ (∀ r, start_output_subprocess plugins msgs = .finished r →
        r.enteredMainLoop = true →
        ∀ p ∈ plugins, p.construct = .success ∧ p.openSucceeds = true) := by
  refine ⟨?_, ?_, ?_⟩
  · intro ha
    have hf : plugins.all (fun p => p.construct.isSuccess) = false := by
      cases hb : plugins.all (fun p => p.construct.isSuccess) with
      | false => rfl
      | true =>
          exact absurd
            (fun p hp => (isSuccess_iff _).mp (List.all_eq_true.mp hb p hp)) ha
    unfold start_output_subprocess
    rw [hf]
    rfl
  · intro hcons ha
    have hca : plugins.all (fun p => p.construct.isSuccess) = true := by
      rw [List.all_eq_true]
      intro p hp
      rw [isSuccess_iff]
      exact hcons p hp
    have hf : plugins.all (fun p => p.openSucceeds) = false := by
      cases hb : plugins.all (fun p => p.openSucceeds) with
      | false => rfl
      | true => exact absurd (fun p hp => List.all_eq_true.mp hb p hp) ha
    unfold start_output_subprocess
    rw [if_pos hca, hf]
    rfl
  · intro r hr hent p hp
    unfold start_output_subprocess at hr
    by_cases hca : plugins.all (fun p => p.construct.isSuccess) = true
    · rw [if_pos hca] at hr
      by_cases hoa : plugins.all (fun p => p.openSucceeds) = true
      · exact ⟨(isSuccess_iff _).mp (List.all_eq_true.mp hca p hp),
          List.all_eq_true.mp hoa p hp⟩
      · rw [if_neg hoa] at hr
        simp only [OutputOutcome.finished.injEq] at hr
        rw [← hr] at hent
        exact absurd hent (by simp)
    · rw [if_neg hca] at hr
      simp only [OutputOutcome.finished.injEq] at hr
      rw [← hr] at hent
      exact absurd hent (by simp)

/-- Witness for C5 amended: a construction failure terminates with the
done signal set and the loop never entered; an open failure crashes with
no close attempted. -/
theorem c5_open_before_consume_amended_witness :
    start_output_subprocess [⟨.configurationError, true, fun _ => .returns 1, true⟩]
        ([some [0], none] : List (Option (List Nat))) =
      .finished { enteredMainLoop := false, openedAll := false,
                  closeAttempted := false, increments := [],
                  crashed := false, doneSet := true, exitCode := 1 }
    ∧ start_output_subprocess [⟨.success, false, fun _ => .returns 1, true⟩]
        ([some [0], none] : List (Option (List Nat))) =
      .finished { enteredMainLoop := false, openedAll := false,
                  closeAttempted := false, increments := [],
                  crashed := true, doneSet := false, exitCode := 1 } := by
  constructor
  · exact (c5_open_before_consume_amended Nat
      [⟨.configurationError, true, fun _ => .returns 1, true⟩] [some [0], none]).1
      (by intro hall
          have := hall ⟨.configurationError, true, fun _ => .returns 1, true⟩
            (List.mem_singleton.mpr rfl)
          exact absurd this (by simp))
  · exact (c5_open_before_consume_amended Nat
      [⟨.success, false, fun _ => .returns 1, true⟩] [some [0], none]).2.1
      (by intro p hp
          rw [List.mem_singleton] at hp
          subst hp
          rfl)
      (by intro hall
          have := hall ⟨.success, false, fun _ => .returns 1, true⟩
            (List.mem_singleton.mpr rfl)
          exact absurd this (by simp))

/-- C6 counterexample: the SIGINT handler installed by the `subprocess`
decorator is `exit(0)`, an exit path on which the stage's done signal is
not set before the process exits — contrary to the claim that every exit
path, SIGINT included, sets it. -/
theorem c6_sigint_counterexample :
    (sigint_handler_exit Nat).doneSet = false
    ∧ (sigint_handler_exit Nat).exitCode = 0 :=
  ⟨rfl, rfl⟩

/-- C6 amended: on every exit path that terminates through the stages'
own handlers — normal completion, configuration error, runtime error and
caught unanticipated error, with a validated (non-empty) input
configuration — the stage's done signal is set before exit; it is never
cleared (no stage ever calls `clear`).  However the SIGINT handler exits
with code 0 without setting it, and exit paths on which an exception
escapes uncaught (an empty input mapping; an open, close or write fault
escaping the output stage's run loop) also leave it unset. -/
theorem c6_done_signal_amended :
    (∀ (κ ο τ : Type) (size : Nat) (config : List (κ × ο)) (env : InputEnv τ),
      config ≠ [] → (start_input_subprocess size config env).doneSet = true)
    ∧ (∀ (τ ε : Type) (size : Nat) (env : EventEnv τ ε)
        (msgs : List (Option (List τ))) (r : StageResult (List ε)),
        start_event_subprocess size env msgs = .exited r → r.doneSet = true)
    ∧ (∀ (ε : Type) (plugins : List OutputPluginBehavior)
        (msgs : List (Option (List ε))) (r : OutputStageResult),
        start_output_subprocess plugins msgs = .finished r → r.crashed = false →
        r.doneSet = true)
    ∧ (∀ (μ : Type), (sigint_handler_exit μ).doneSet = false) := by
  refine ⟨?_, ?_, ?_, fun μ => rfl⟩
  · intro κ ο τ size config env h
    unfold start_input_subprocess
    rw [popitem_ne_nil config h]
    obtain ⟨einit, eem, erun⟩ := env
    cases einit <;> cases erun <;> rfl
  · intro τ ε size env msgs r h
    unfold start_event_subprocess at h
    split at h
    · exact eventLoop_exited_done size env.render msgs [] r h
    · simp only [terminate_subprocess, EventStageOutcome.exited.injEq] at h
      rw [← h]
  · intro ε plugins msgs r hr hcr
    unfold start_output_subprocess at hr
    by_cases hca : plugins.all (fun p => p.construct.isSuccess) = true
    · rw [if_pos hca] at hr
      by_cases hoa : plugins.all (fun p => p.openSucceeds) = true
      · rw [if_pos hoa] at hr
        exact outputLoop_finished_done plugins msgs 0 [] r hr hcr
      · rw [if_neg hoa] at hr
        simp only [OutputOutcome.finished.injEq] at hr
        rw [← hr] at hcr
        exact absurd hcr (by simp)
    · rw [if_neg hca] at hr
      simp only [OutputOutcome.finished.injEq] at hr
      rw [← hr]

/-- Witness for C6 amended: a failing input init, the event stage on a
sentinel, an empty-plugin output run, and the SIGINT exit path. -/
theorem c6_done_signal_amended_witness :
    (start_input_subprocess 1 [((0 : Nat), (0 : Nat))]
      (⟨.configurationError, [], .completes⟩ : InputEnv Nat)).doneSet = true
    ∧ ({ out := [none], doneSet := true, exitCode := 0 }
        : StageResult (List Nat)).doneSet = true
    ∧ ({ enteredMainLoop := true, openedAll := true, closeAttempted := true,
         increments := [], crashed := false, doneSet := true, exitCode := 0 }
        : OutputStageResult).doneSet = true
    ∧ (sigint_handler_exit Nat).doneSet = false := by
  refine ⟨?_, ?_, ?_, c6_done_signal_amended.2.2.2 Nat⟩
  · exact c6_done_signal_amended.1 Nat Nat Nat 1 [(0, 0)]
      ⟨.configurationError, [], .completes⟩ (by decide)
  · exact c6_done_signal_amended.2.1 Nat Nat 1
      (⟨.success, fun _ => .ok [0]⟩ : EventEnv Nat Nat) [none]
      { out := [none], doneSet := true, exitCode := 0 } rfl
  · exact c6_done_signal_amended.2.2.1 Nat [] [none]
      { enteredMainLoop := true, openedAll := true, closeAttempted := true,
        increments := [], crashed := false, doneSet := true, exitCode := 0 }
      rfl rfl

/-- C7: an error-free SAMPLE run whose input plugin emits zero
timestamps.  The input stage flushes nothing and puts exactly the
sentinel on input→event, exiting 0 with its done signal set; the event
stage, fed exactly that trace, puts exactly the sentinel on event→output
and exits 0 with its done signal set; the output stage, fed exactly that
trace, makes no counter increment (final counter 0) and exits 0 with its
done signal set. -/
theorem c7_empty_sample_run (κ ο τ ε : Type) (entry : κ × ο)
    (sizeIn sizeEv : Nat) (render : τ → RenderOutcome ε)
    (plugins : List OutputPluginBehavior)
    (hc : ∀ p ∈ plugins, p.construct = .success)
    (ho : ∀ p ∈ plugins, p.openSucceeds = true)
    (hcl : ∀ p ∈ plugins, p.closeSucceeds = true) :
    start_input_subprocess sizeIn [entry] (⟨.success, [], .completes⟩ : InputEnv τ) =
      { pluginLoadAttempted := true, usedEntry := some entry, configAfter := [],
        crashed := false, out := [none], doneSet := true, exitCode := 0 }
    ∧ start_event_subprocess sizeEv (⟨.success, render⟩ : EventEnv τ ε) [none] =
      .exited { out := [none], doneSet := true, exitCode := 0 }
    ∧ start_output_subprocess plugins ([none] : List (Option (List ε))) =
      .finished { enteredMainLoop := true, openedAll := true,
                  closeAttempted := true, increments := [],
                  crashed := false, doneSet := true, exitCode := 0 } := by
  refine ⟨rfl, rfl, ?_⟩
  have hca : plugins.all (fun p => p.construct.isSuccess) = true := by
    rw [List.all_eq_true]
    intro p hp
    rw [isSuccess_iff]
    exact hc p hp
  have hoa : plugins.all (fun p => p.openSucceeds) = true := by
    rw [List.all_eq_true]
    intro p hp
    exact ho p hp
  have hcla : plugins.all (fun p => p.closeSucceeds) = true := by
    rw [List.all_eq_true]
    intro p hp
    exact hcl p hp
  unfold start_output_subprocess
  rw [if_pos hca, if_pos hoa]
  simp only [outputLoop, hcla, if_true]

/-- Witness for C7: one stdout-like plugin that succeeds everywhere. -/
theorem c7_empty_sample_run_witness :
    start_input_subprocess 10 [((3 : Nat), (4 : Nat))]
      (⟨.success, [], .completes⟩ : InputEnv Nat) =
      { pluginLoadAttempted := true, usedEntry := some (3, 4), configAfter := [],
        crashed := false, out := [none], doneSet := true, exitCode := 0 }
    ∧ start_output_subprocess [⟨.success, true, fun _ => .returns 1, true⟩]
        ([none] : List (Option (List Nat))) =
      .finished { enteredMainLoop := true, openedAll := true,
                  closeAttempted := true, increments := [],
                  crashed := false, doneSet := true, exitCode := 0 } := by
  have h := c7_empty_sample_run Nat Nat Nat Nat (3, 4) 10 5
    (fun _ => RenderOutcome.ok [0])
    [⟨.success, true, fun _ => .returns 1, true⟩]
    (by intro p hp
        rw [List.mem_singleton] at hp
        subst hp
        rfl)
    (by intro p hp
        rw [List.mem_singleton] at hp
        subst hp
        rfl)
    (by intro p hp
        rw [List.mem_singleton] at hp
        subst hp
        rfl)
  exact ⟨h.1, h.2.2⟩

/-- C8 counterexample: the input stage's `config.popitem()` mutates the
mapping passed to the stage: for a one-entry mapping the entry set after
startup (empty) differs from the entry set before (one entry) — contrary
to the claim that the mapping holds the same entries after stage startup
as before. -/
theorem c8_popitem_mutates_counterexample :
    (start_input_subprocess 4 [((1 : Nat), (2 : Nat))]
      (⟨.success, [], .completes⟩ : InputEnv Nat)).configAfter ≠ [(1, 2)] := by
  decide

/-- C8 amended: the event and output stages only read their
configuration documents, but the input stage mutates its mapping exactly
once during startup: `popitem` removes the last-inserted entry, so after
startup the input configuration mapping equals the original mapping with
its last entry removed. -/
theorem c8_config_mutation_amended (κ ο τ : Type) (size : Nat)
    (config : List (κ × ο)) (env : InputEnv τ) :
    (start_input_subprocess size config env).configAfter = config.dropLast := by
  rcases eq_or_ne config [] with hc | hc
  · subst hc
    rfl
  · unfold start_input_subprocess
    rw [popitem_ne_nil config hc]
    obtain ⟨einit, eem, erun⟩ := env
    cases einit <;> cases erun <;> rfl

/-- C9: in `write_batch`, the local `count` is assigned exactly when the
batch is non-empty and the plugin call returns; the partial-write
comparison completes normally if and only if that holds; a batch of
length 0, or a caught `OutputPluginRuntimeError`, makes the comparison
read an unassigned variable and fault; and under the precondition that
the batch is non-empty and the write returns, the fault branch is
unreachable. -/
theorem c9_count_defined_iff (ε : Type) (batch : List ε) (b : WriteBehavior) :
    ((write_batch batch b).isOk = true ↔ batch ≠ [] ∧ ∃ c, b = .returns c)
    ∧ (batch ≠ [] → write_batch batch .raisesRuntime = .unboundLocalError true)
    ∧ (write_batch ([] : List ε) b = .unboundLocalError false)
    ∧ (∀ c, batch ≠ [] →
        write_batch batch (.returns c) = .ok (decide (c < batch.length))) := by
  refine ⟨⟨?_, ?_⟩, write_batch_runtime_error batch, write_batch_nil b,
    fun c h => write_batch_returns_ok batch c h⟩
  · intro hok
    rcases eq_or_ne batch [] with hb | hb
    · subst hb
      rw [write_batch_nil] at hok
      exact absurd hok (by simp [WriteBatchResult.isOk])
    · refine ⟨hb, ?_⟩
      cases b with
      | returns c => exact ⟨c, rfl⟩
      | raisesRuntime =>
          rw [write_batch_runtime_error batch hb] at hok
          exact absurd hok (by simp [WriteBatchResult.isOk])
      | raisesOther =>
          rw [write_batch_other_error batch hb] at hok
          exact absurd hok (by simp [WriteBatchResult.isOk])
  · rintro ⟨hb, c, rfl⟩
    rw [write_batch_returns_ok batch c hb]
    rfl

/-- Witness for C9: a singleton batch with a returning plugin completes
normally; the caught runtime error faults on the unassigned `count`. -/
theorem c9_count_defined_iff_witness :
    (write_batch [(0 : Nat)] (.returns 0)).isOk = true
    ∧ write_batch [(0 : Nat)] .raisesRuntime = .unboundLocalError true := by
  constructor
  · exact (c9_count_defined_iff Nat [0] (.returns 0)).1.mpr
      ⟨by decide, 0, rfl⟩
  · exact (c9_count_defined_iff Nat [0] (.returns 0)).2.1 (by decide)

/-- C10: the input stage consumes exactly one entry of its configuration
mapping via `popitem`: on a non-empty mapping it uses the last-inserted
entry, removes it, ignores all other entries and raises no error; on an
empty mapping the stage fails (uncaught `KeyError`) before any plugin
load is attempted. -/
theorem c10_popitem_consumes_last (κ ο τ : Type) (size : Nat)
    (env : InputEnv τ) (config : List (κ × ο)) :
    (config ≠ [] →
      (start_input_subprocess size config env).usedEntry = config.getLast?
      ∧ (start_input_subprocess size config env).configAfter = config.dropLast
      ∧ (start_input_subprocess size config env).pluginLoadAttempted = true
      ∧ (start_input_subprocess size config env).crashed = false)
    ∧ (config = [] →
      (start_input_subprocess size config env).pluginLoadAttempted = false
      ∧ (start_input_subprocess size config env).crashed = true
      ∧ (start_input_subprocess size config env).out = []) := by
  constructor
  · intro h
    unfold start_input_subprocess
    rw [popitem_ne_nil config h, List.getLast?_eq_getLast config h]
    obtain ⟨einit, eem, erun⟩ := env
    cases einit <;> cases erun <;> exact ⟨rfl, rfl, rfl, rfl⟩
  · intro h
    subst h
    exact ⟨rfl, rfl, rfl⟩

/-- Witness for C10: a two-entry mapping uses the second (last-inserted)
entry and keeps the first; the empty mapping crashes before plugin
load. -/
theorem c10_popitem_consumes_last_witness :
    (start_input_subprocess 3 [((1 : Nat), (10 : Nat)), (2, 20)]
      (⟨.success, [7], .completes⟩ : InputEnv Nat)).usedEntry = some (2, 20)
    ∧ (start_input_subprocess 3 [((1 : Nat), (10 : Nat)), (2, 20)]
      (⟨.success, [7], .completes⟩ : InputEnv Nat)).configAfter = [(1, 10)]
    ∧ (start_input_subprocess 3 ([] : List (Nat × Nat))
      (⟨.success, [7], .completes⟩ : InputEnv Nat)).crashed = true := by
  have h1 := (c10_popitem_consumes_last Nat Nat Nat 3
    ⟨.success, [7], .completes⟩ [(1, 10), (2, 20)]).1 (by decide)
  have h2 := (c10_popitem_consumes_last Nat Nat Nat 3
    ⟨.success, [7], .completes⟩ []).2 rfl
  exact ⟨h1.1, h1.2.1, h2.2.1⟩

end Eventum
